import Mathlib

/-!
# Verification of the jBark voice-transform pipeline

Shallow embedding of `src/jbark.py` (class `JBark`).  Audio buffers are
`List Int` (16-bit signed samples) at the integer stage and `List ℚ` at the
floating-point stage; Python floats are idealized as exact rationals.  The
external DSP collaborators (`librosa.effects.pitch_shift`, `resampy.resample`)
are opaque pure functions bundled in a `DSP` record, as the specification
treats them (deterministic, side-effect free).  The speech-synthesis model and
`wavfile.write` are likewise modelled as an opaque environment plus an explicit
trace of write events.
-/

namespace JBark

/-- Python `int()` applied to a float: truncation toward zero. -/
def pyInt (q : ℚ) : Int := if 0 ≤ q then ⌊q⌋ else ⌈q⌉

/-- `numpy.ndarray.astype(np.int16)`: wraparound into [-32768, 32767]. -/
def int16_astype (z : Int) : Int := (z + 32768) % 65536 - 32768

/-- Peak absolute value of a buffer (`np.max(np.abs(S))` inside
`librosa.util.normalize`). -/
def peakAbs (l : List ℚ) : ℚ := l.foldr (fun x m => max |x| m) 0

/-- `librosa.util.normalize(S)` with the default `norm=np.inf`: divide every
sample by the peak absolute value, unless the peak is below the tiny positive
threshold `np.finfo(np.float32).tiny`, in which case the buffer is returned
unchanged (`fill=None`).  For inputs obtained from integer samples the peak is
either `0` or at least `1`, so the threshold test is equivalent to `peak = 0`,
which is how it is rendered here. -/
def librosa_normalize (l : List ℚ) : List ℚ :=
  if peakAbs l = 0 then l else l.map (fun x => x / peakAbs l)

/-- `audio.astype(np.float32)` on an int16 buffer: every 16-bit integer is
exactly representable as a float32, so this is the exact injection of the
samples into the rationals. -/
def astype_float (audio : List Int) : List ℚ :=
  audio.map (fun z : Int => (z : ℚ))

/-- The external DSP collaborators of `jbark.py`, opaque boundaries per the
specification: `pitch_shift audio sr n_steps` models
`librosa.effects.pitch_shift`, and `resample audio sr_orig sr_new` models
`resampy.resample` (called in `custom_time_stretch` with the buffer lengths
playing the role of the two sample rates). -/
structure DSP where
  pitch_shift : List ℚ → Nat → ℚ → List ℚ
  resample : List ℚ → Int → Int → List ℚ

/-- The `VoiceCharacteristics` record: a Python dict read with
`.get("pitch", 0)` and `.get("tempo", 120)`; an absent key is `none`. -/
structure VoiceCharacteristics where
  pitch : Option ℚ
  tempo : Option ℚ

/-- `JBark.custom_time_stretch` (src/jbark.py lines 123-132):
`new_length = int(len(audio) / rate)` followed by
`resampy.resample(audio, len(audio), new_length)`.
The division `len(audio) / rate` is Python float division performed in this
repository's own code; for `rate = 0` it raises `ZeroDivisionError`, modelled
as `none`. -/
def custom_time_stretch (dsp : DSP) (audio : List ℚ) (rate : ℚ) :
    Option (List ℚ) :=
  if rate = 0 then none
  else some (dsp.resample audio (audio.length : Int)
    (pyInt ((audio.length : ℚ) / rate)))

/-- Length normalization step of `simple_voice_conversion`
(src/jbark.py lines 110-116): truncate if longer than the original length,
zero-pad at the end if shorter, otherwise leave unchanged. -/
def length_normalize (origLen : Nat) (l : List ℚ) : List ℚ :=
  if l.length > origLen then l.take origLen
  else if l.length < origLen then l ++ List.replicate (origLen - l.length) 0
  else l

/-- Final conversion step of `simple_voice_conversion`
(src/jbark.py line 119): `(audio_converted * 32767).astype(np.int16)`. -/
def int16_of_floats (l : List ℚ) : List Int :=
  l.map (fun x => int16_astype (pyInt (x * 32767)))

/-- `SAMPLE_RATE` imported from `bark` (24 kHz, process-wide constant). -/
def SAMPLE_RATE : Nat := 24000

/-- `JBark.simple_voice_conversion` (src/jbark.py lines 87-121):
extract pitch/tempo with defaults 0 and 120, normalize to float, pitch-shift
by `pitch * 12` semitones at `SAMPLE_RATE`, time-stretch by `tempo / 120`,
length-normalize against the input length, convert back to int16.
Result is `none` when `custom_time_stretch` raises (division by zero). -/
def simple_voice_conversion (dsp : DSP) (audio : List Int)
    (vc : VoiceCharacteristics) : Option (List Int) :=
  let target_pitch := vc.pitch.getD 0
  let target_tempo := vc.tempo.getD 120
  let audio_float := librosa_normalize (astype_float audio)
  let n_steps := target_pitch * 12
  let audio_pitched := dsp.pitch_shift audio_float SAMPLE_RATE n_steps
  let rate := target_tempo / 120
  (custom_time_stretch dsp audio_pitched rate).map
    (fun audio_stretched =>
      int16_of_floats (length_normalize audio.length audio_stretched))

/-- The tail of the `simple_voice_conversion` pipeline after the pitch-shift
call: time stretch, length normalization against the original input length,
and int16 conversion.  `simple_voice_conversion` is definitionally this tail
applied to the result of the pitch-shift call (theorem
`C5_octaves_to_semitones`). -/
def after_pitch_stage (dsp : DSP) (origLen : Nat) (rate : ℚ)
    (pitched : List ℚ) : Option (List Int) :=
  (custom_time_stretch dsp pitched rate).map
    (fun audio_stretched =>
      int16_of_floats (length_normalize origLen audio_stretched))

/-- The buffer of floats entering the final int16 conversion of
`simple_voice_conversion`: the pipeline up to and including length
normalization (src/jbark.py lines 96-116). -/
def conversion_input (dsp : DSP) (audio : List Int)
    (vc : VoiceCharacteristics) : Option (List ℚ) :=
  let target_pitch := vc.pitch.getD 0
  let target_tempo := vc.tempo.getD 120
  let audio_float := librosa_normalize (astype_float audio)
  let n_steps := target_pitch * 12
  let audio_pitched := dsp.pitch_shift audio_float SAMPLE_RATE n_steps
  let rate := target_tempo / 120
  (custom_time_stretch dsp audio_pitched rate).map
    (length_normalize audio.length)

/-- A record of one `wavfile.write(path, sample_rate, data)` call. -/
structure WriteEvent where
  path : String
  sample_rate : Nat
  data : List Int
  deriving DecidableEq, Repr

/-- The external speech-synthesis collaborator (`bark.generate_audio`):
may raise (modelled by `Except.error`). -/
structure SynthEnv (ε : Type) where
  synthesize : String → Option String → Except ε (List Int)

/-- Failures surfacing from `generate_with_cloned_voice`: either an exception
of an external collaborator, propagated unmodified in `external`, or the
`ZeroDivisionError` raised inside `custom_time_stretch`. -/
inductive ConvError (ε : Type) where
  | external : ε → ConvError ε
  | zero_division : ConvError ε
  deriving DecidableEq

/-- `JBark.generate_audio` (src/jbark.py lines 33-49): call the synthesis
model, then write the result to `output_path` when one is given.  The second
component is the trace of `wavfile.write` calls performed. -/
def generate_audio {ε : Type} (env : SynthEnv ε) (text : String)
    (output_path : Option String) (history : Option String) :
    Except ε (List Int) × List WriteEvent :=
  match env.synthesize text history with
  | .error e => (.error e, [])
  | .ok audio =>
      match output_path with
      | some p => (.ok audio, [⟨p, SAMPLE_RATE, audio⟩])
      | none => (.ok audio, [])

/-- `JBark.generate_with_cloned_voice` (src/jbark.py lines 67-85): generate
base audio (no output path), apply `simple_voice_conversion`, write the
converted audio, return it.  Every collaborator failure aborts the whole call
with the trace of writes performed so far. -/
def generate_with_cloned_voice {ε : Type} (env : SynthEnv ε) (dsp : DSP)
    (text : String) (vc : VoiceCharacteristics) (output_path : String) :
    Except (ConvError ε) (List Int) × List WriteEvent :=
  match generate_audio env text none none with
  | (.error e, w) => (.error (.external e), w)
  | (.ok base, w) =>
      match simple_voice_conversion dsp base vc with
      | none => (.error .zero_division, w)
      | some converted =>
          (.ok converted, w ++ [⟨output_path, SAMPLE_RATE, converted⟩])

/-- A concrete instantiation of the DSP boundary used for witnesses and
counterexamples: pitch shift is the identity and resampling truncates or
zero-pads to the target length (hence is length-correct, an identity at equal
sample rates). -/
def resampleId (a : List ℚ) (_s t : Int) : List ℚ :=
  a.take t.toNat ++ List.replicate (t.toNat - a.length) 0

/-- The concrete DSP record built from identity pitch shift and `resampleId`. -/
def dspId : DSP := ⟨fun a _ _ => a, fun a s t => resampleId a s t⟩

/-- A synthesis environment whose model call always raises (exception `7`). -/
def envFail : SynthEnv Nat := ⟨fun _ _ => Except.error 7⟩

/-- A synthesis environment whose model call always returns the buffer `[5]`. -/
def envOk : SynthEnv Nat := ⟨fun _ _ => Except.ok [5]⟩

theorem peakAbs_cons (x : ℚ) (xs : List ℚ) :
    peakAbs (x :: xs) = max |x| (peakAbs xs) := rfl

theorem peakAbs_nonneg (l : List ℚ) : 0 ≤ peakAbs l := by
  induction l with
  | nil => simp [peakAbs]
  | cons x xs ih =>
      rw [peakAbs_cons]
      exact le_trans ih (le_max_right _ _)

theorem abs_le_peakAbs (l : List ℚ) (x : ℚ) (hx : x ∈ l) : |x| ≤ peakAbs l := by
  induction l with
  | nil => cases hx
  | cons y ys ih =>
      rw [peakAbs_cons]
      rcases List.mem_cons.mp hx with h | h
      · rw [h]; exact le_max_left _ _
      · exact le_trans (ih h) (le_max_right _ _)

theorem abs_le_one_of_mem_librosa_normalize (l : List ℚ) (x : ℚ)
    (hx : x ∈ librosa_normalize l) : |x| ≤ 1 := by
  unfold librosa_normalize at hx
  by_cases h : peakAbs l = 0
  · rw [if_pos h] at hx
    have hb := abs_le_peakAbs l x hx
    rw [h] at hb
    linarith [abs_nonneg x]
  · rw [if_neg h] at hx
    obtain ⟨y, hy, rfl⟩ := List.mem_map.mp hx
    have hpos : 0 < peakAbs l := lt_of_le_of_ne (peakAbs_nonneg l) (Ne.symm h)
    have hyb := abs_le_peakAbs l y hy
    rw [abs_div, abs_of_pos hpos]
    exact (div_le_one hpos).mpr hyb

theorem librosa_normalize_length (l : List ℚ) :
    (librosa_normalize l).length = l.length := by
  unfold librosa_normalize
  split <;> simp

theorem length_normalize_length (n : Nat) (l : List ℚ) :
    (length_normalize n l).length = n := by
  unfold length_normalize
  by_cases h1 : l.length > n
  · rw [if_pos h1]; simp; omega
  · rw [if_neg h1]
    by_cases h2 : l.length < n
    · rw [if_pos h2]; simp; omega
    · rw [if_neg h2]; omega

theorem int16_astype_eq_self (z : Int) (h1 : -32768 ≤ z) (h2 : z ≤ 32767) :
    int16_astype z = z := by
  unfold int16_astype
  omega

theorem pyInt_le (q : ℚ) (n : Int) (h : q ≤ (n : ℚ)) : pyInt q ≤ n := by
  unfold pyInt
  split
  · calc ⌊q⌋ ≤ ⌊(n : ℚ)⌋ := Int.floor_le_floor h
      _ = n := Int.floor_intCast n
  · exact Int.ceil_le.mpr h

theorem le_pyInt (q : ℚ) (n : Int) (h : (n : ℚ) ≤ q) : n ≤ pyInt q := by
  unfold pyInt
  split
  · exact Int.le_floor.mpr h
  · calc n = ⌈(n : ℚ)⌉ := (Int.ceil_intCast n).symm
      _ ≤ ⌈q⌉ := Int.ceil_le_ceil h

theorem pyInt_natCast (n : Nat) : pyInt (n : ℚ) = (n : Int) := by
  unfold pyInt
  rw [if_pos (by positivity)]
  exact_mod_cast Int.floor_natCast n

theorem pyInt_mul_32767_bounds (x : ℚ) (h1 : -1 ≤ x) (h2 : x ≤ 1) :
    -32767 ≤ pyInt (x * 32767) ∧ pyInt (x * 32767) ≤ 32767 := by
  constructor
  · apply le_pyInt; push_cast; nlinarith
  · apply pyInt_le; push_cast; nlinarith

theorem int16_of_floats_eq_of_bounded (l : List ℚ)
    (h : ∀ x ∈ l, -1 ≤ x ∧ x ≤ 1) :
    int16_of_floats l = l.map (fun x => pyInt (x * 32767)) := by
  unfold int16_of_floats
  apply List.map_congr_left
  intro x hx
  obtain ⟨hb1, hb2⟩ := pyInt_mul_32767_bounds x (h x hx).1 (h x hx).2
  exact int16_astype_eq_self _ (by omega) (by omega)

theorem simple_voice_conversion_eq_map (dsp : DSP) (audio : List Int)
    (vc : VoiceCharacteristics) :
    simple_voice_conversion dsp audio vc =
      (conversion_input dsp audio vc).map int16_of_floats := by
  simp only [simple_voice_conversion, conversion_input, Option.map_map]
  rfl

theorem conversion_input_length (dsp : DSP) (audio : List Int)
    (vc : VoiceCharacteristics) (l : List ℚ)
    (h : conversion_input dsp audio vc = some l) : l.length = audio.length := by
  unfold conversion_input at h
  obtain ⟨s, _, rfl⟩ := Option.map_eq_some'.mp h
  exact length_normalize_length audio.length s

theorem dspId_resample_length (a : List ℚ) (s t : Int) :
    (dspId.resample a s t).length = t.toNat := by
  simp [dspId, resampleId]
  omega

theorem dspId_resample_id (a : List ℚ) :
    dspId.resample a (a.length : Int) (a.length : Int) = a := by
  simp [dspId, resampleId]

/-- C1: whenever `simple_voice_conversion` returns, the returned buffer has
exactly the input's length; the length-normalization step truncates an
intermediate buffer that is longer than the input, zero-pads at the end one
that is shorter, and leaves an equal-length one unchanged. -/
theorem C1_transform_length_invariance (dsp : DSP) (audio : List Int)
    (vc : VoiceCharacteristics) (out : List Int)
    (h : simple_voice_conversion dsp audio vc = some out) :
    out.length = audio.length ∧
    (∀ (n : Nat) (l : List ℚ),
      (l.length > n → length_normalize n l = l.take n) ∧
      (l.length < n →
        length_normalize n l = l ++ List.replicate (n - l.length) 0) ∧
      (l.length = n → length_normalize n l = l)) := by
  constructor
  · rw [simple_voice_conversion_eq_map] at h
    obtain ⟨l, hl, rfl⟩ := Option.map_eq_some'.mp h
    unfold int16_of_floats
    rw [List.length_map]
    exact conversion_input_length dsp audio vc l hl
  · intro n l
    refine ⟨fun h1 => ?_, fun h2 => ?_, fun h3 => ?_⟩
    · unfold length_normalize; rw [if_pos h1]
    · unfold length_normalize; rw [if_neg (by omega), if_pos h2]
    · unfold length_normalize; rw [if_neg (by omega), if_neg (by omega)]

theorem C1_transform_length_invariance_witness :
    ([10922, 21844, 32767] : List Int).length = ([1, 2, 3] : List Int).length :=
  (C1_transform_length_invariance dspId [1, 2, 3] ⟨none, some 60⟩
    [10922, 21844, 32767]
    (by simp [simple_voice_conversion, librosa_normalize, peakAbs,
          astype_float, custom_time_stretch, length_normalize,
          int16_of_floats, pyInt, int16_astype, dspId, resampleId]
        norm_num)).1

/-- C2 counterexample: with pitch 0 and tempo 120 and ideal external routines
(identity pitch shift and length-true resampling), the input `[1, 2]` comes
back as `[16383, 32767]`: the first sample is off by 16382, far more than the
1-least-significant-bit error the claim allows, because the pipeline rescales
by the input peak rather than round-tripping the sample values. -/
theorem C2_transform_identity_counterexample :
    simple_voice_conversion dspId [1, 2] ⟨some 0, some 120⟩ =
      some [16383, 32767] ∧ (1 : Int) < |16383 - 1| := by
  constructor
  · simp [simple_voice_conversion, librosa_normalize, peakAbs, astype_float,
      custom_time_stretch, length_normalize, int16_of_floats, pyInt,
      int16_astype, dspId, resampleId]
    norm_num
  · decide

/-- C2 (amended): with pitch offset 0 and tempo 120 (rate 1), and assuming the
external pitch-shift routine at 0 semitones and the external resampler at
equal source and target rates are identities, `simple_voice_conversion`
returns the input peak-normalized and rescaled to the full 16-bit range: every
sample `x` maps to `trunc(x * 32767 / peak)`.  Sample values are preserved up
to 1 least-significant bit only when the input peak is already 32767, not for
every input buffer. -/
theorem C2_transform_peak_rescale (dsp : DSP)
    (hp : ∀ (a : List ℚ) (sr : Nat), dsp.pitch_shift a sr 0 = a)
    (hr : ∀ a : List ℚ,
      dsp.resample a (a.length : Int) (a.length : Int) = a)
    (audio : List Int) :
    simple_voice_conversion dsp audio ⟨some 0, some 120⟩ =
      some ((librosa_normalize (astype_float audio)).map
        (fun x => pyInt (x * 32767))) := by
  have h120 : (120 : ℚ) / 120 = 1 := by norm_num
  simp only [simple_voice_conversion, Option.getD_some, zero_mul, h120]
  rw [hp]
  unfold custom_time_stretch
  rw [if_neg one_ne_zero, div_one, pyInt_natCast, hr]
  have hlen : (librosa_normalize (astype_float audio)).length
      = audio.length := by
    rw [librosa_normalize_length]
    unfold astype_float
    rw [List.length_map]
  have hid : length_normalize audio.length
      (librosa_normalize (astype_float audio))
      = librosa_normalize (astype_float audio) := by
    unfold length_normalize
    rw [if_neg (by omega), if_neg (by omega)]
  simp only [Option.map_some']
  rw [hid, int16_of_floats_eq_of_bounded]
  intro x hx
  have hb := abs_le_one_of_mem_librosa_normalize _ x hx
  exact abs_le.mp hb

theorem C2_transform_peak_rescale_witness :
    simple_voice_conversion dspId [1, 2] ⟨some 0, some 120⟩ =
      some ((librosa_normalize (astype_float [1, 2])).map
        (fun x => pyInt (x * 32767))) :=
  C2_transform_peak_rescale dspId (fun _ _ => rfl) dspId_resample_id [1, 2]

/-- C3: `simple_voice_conversion` validates neither pitch nor tempo: any pair
of values reaches the pitch-shift call (at `pitch * 12` semitones) and the
time-stretch call (at rate `tempo / 120`) unchecked, and tempo 0 produces rate
0, on which the `new_length = int(len(audio) / rate)` computation inside
`custom_time_stretch` divides by zero (modelled as `none`). -/
theorem C3_no_validation_rate_zero_div (dsp : DSP) (audio : List Int)
    (p t : ℚ) :
    (simple_voice_conversion dsp audio ⟨some p, some t⟩ =
      after_pitch_stage dsp audio.length (t / 120)
        (dsp.pitch_shift (librosa_normalize (astype_float audio))
          SAMPLE_RATE (p * 12))) ∧
    (simple_voice_conversion dsp audio ⟨some p, some 0⟩ = none) ∧
    (∀ a : List ℚ, custom_time_stretch dsp a 0 = none) := by
  refine ⟨rfl, ?_, ?_⟩
  · simp [simple_voice_conversion, custom_time_stretch]
  · intro a
    simp [custom_time_stretch]

/-- C4 counterexample: at input length 10 and rate 99/100 < 1,
`custom_time_stretch` computes `int(10 / 0.99) = 10`, so the output buffer has
the same length as the input rather than being strictly longer. -/
theorem C4_rate_lt_one_not_strictly_longer :
    (99 / 100 : ℚ) < 1 ∧
    (custom_time_stretch dspId (List.replicate 10 1) (99 / 100)).map
      List.length = some (List.replicate 10 (1 : ℚ)).length ∧
    ¬ (List.replicate 10 (1 : ℚ)).length < 10 := by
  refine ⟨by norm_num, ?_, by simp⟩
  simp [custom_time_stretch, pyInt, dspId, resampleId]
  norm_num
  omega

/-- C4 (amended): for a buffer of length at least 1 and a rate greater than 0,
`custom_time_stretch` returns a buffer of length `floor(len / rate)`
(assuming the external resampler honours its target length); a rate greater
than 1 gives a strictly shorter buffer, and a rate less than 1 gives a buffer
at least as long as the input — strictly longer only when
`floor(len / rate) > len`, not for every rate below 1. -/
theorem C4_stretch_length_floor (dsp : DSP)
    (hres : ∀ (a : List ℚ) (s t : Int), 0 ≤ t →
      (dsp.resample a s t).length = t.toNat)
    (a : List ℚ) (rate : ℚ) (out : List ℚ)
    (hlen : 1 ≤ a.length) (hrate : 0 < rate)
    (h : custom_time_stretch dsp a rate = some out) :
    (out.length : Int) = ⌊(a.length : ℚ) / rate⌋ ∧
    (1 < rate → out.length < a.length) ∧
    (rate < 1 → a.length ≤ out.length) := by
  unfold custom_time_stretch at h
  rw [if_neg (ne_of_gt hrate), Option.some_inj] at h
  have hq : 0 ≤ (a.length : ℚ) / rate := by positivity
  have hpy : pyInt ((a.length : ℚ) / rate) = ⌊(a.length : ℚ) / rate⌋ := by
    unfold pyInt; rw [if_pos hq]
  have hfl : 0 ≤ ⌊(a.length : ℚ) / rate⌋ := Int.floor_nonneg.mpr hq
  have h2 := hres a (a.length : Int) (pyInt ((a.length : ℚ) / rate))
    (by rw [hpy]; exact hfl)
  rw [h] at h2
  have hlength : (out.length : Int) = ⌊(a.length : ℚ) / rate⌋ := by
    rw [h2, hpy, Int.toNat_of_nonneg hfl]
  refine ⟨hlength, fun hr1 => ?_, fun hr1 => ?_⟩
  · have hql : (a.length : ℚ) / rate < (a.length : ℚ) := by
      apply div_lt_self _ hr1
      exact_mod_cast Nat.lt_of_lt_of_le Nat.zero_lt_one hlen
    have hlt : ⌊(a.length : ℚ) / rate⌋ < (a.length : Int) := by
      apply Int.floor_lt.mpr
      exact_mod_cast hql
    omega
  · have hql : (a.length : ℚ) ≤ (a.length : ℚ) / rate := by
      rw [le_div_iff₀ hrate]
      have h0 : (0 : ℚ) ≤ (a.length : ℚ) := by positivity
      nlinarith
    have hle : (a.length : Int) ≤ ⌊(a.length : ℚ) / rate⌋ := by
      apply Int.le_floor.mpr
      exact_mod_cast hql
    omega

theorem C4_stretch_length_floor_witness :
    ((([1] : List ℚ).length : Int) =
      ⌊((List.replicate 3 (1 : ℚ)).length : ℚ) / 2⌋) ∧
    ((1 : ℚ) < 2 → ([1] : List ℚ).length < (List.replicate 3 (1 : ℚ)).length) ∧
    ((2 : ℚ) < 1 →
      (List.replicate 3 (1 : ℚ)).length ≤ ([1] : List ℚ).length) :=
  C4_stretch_length_floor dspId (fun a s t _ => dspId_resample_length a s t)
    (List.replicate 3 1) 2 [1] (by simp) (by norm_num)
    (by simp [custom_time_stretch, pyInt, dspId, resampleId]
        norm_num)

/-- C5: `simple_voice_conversion` is definitionally the pipeline that invokes
the external pitch-shift routine with `n_steps` equal to the pitch offset
multiplied by exactly 12 (octaves to semitones) at the process-wide
`SAMPLE_RATE`, followed by the remaining stages. -/
theorem C5_octaves_to_semitones (dsp : DSP) (audio : List Int)
    (vc : VoiceCharacteristics) :
    simple_voice_conversion dsp audio vc =
      after_pitch_stage dsp audio.length (vc.tempo.getD 120 / 120)
        (dsp.pitch_shift (librosa_normalize (astype_float audio))
          SAMPLE_RATE (vc.pitch.getD 0 * 12)) := rfl

/-- C6: the first step of `simple_voice_conversion` — float conversion
followed by `librosa.util.normalize` — yields samples that all lie in the
range [-1, 1]. -/
theorem C6_normalize_range (audio : List Int) (x : ℚ)
    (hx : x ∈ librosa_normalize (astype_float audio)) :
    -1 ≤ x ∧ x ≤ 1 :=
  abs_le.mp (abs_le_one_of_mem_librosa_normalize _ x hx)

theorem C6_normalize_range_witness : -1 ≤ (3 / 4 : ℚ) ∧ (3 / 4 : ℚ) ≤ 1 :=
  C6_normalize_range [3, -4] (3 / 4)
    (by have hc : librosa_normalize (astype_float [3, -4])
          = [3 / 4, -1] := by
          simp [librosa_normalize, peakAbs, astype_float]
          norm_num
        rw [hc]
        norm_num)

/-- C7: failures of the external synthesis collaborator propagate out of
`generate_audio` and `generate_with_cloned_voice` unmodified with no recovery
and with no file written, and a failure inside `simple_voice_conversion`
(division by zero) likewise aborts `generate_with_cloned_voice` before its
file-write step. -/
theorem C7_error_propagation {ε : Type} (env : SynthEnv ε) (dsp : DSP)
    (e : ε) :
    (∀ (text : String) (path hist : Option String),
      env.synthesize text hist = Except.error e →
      generate_audio env text path hist = (Except.error e, [])) ∧
    (∀ (text : String) (vc : VoiceCharacteristics) (path : String),
      env.synthesize text none = Except.error e →
      generate_with_cloned_voice env dsp text vc path =
        (Except.error (ConvError.external e), [])) ∧
    (∀ (text : String) (vc : VoiceCharacteristics) (path : String)
      (base : List Int),
      env.synthesize text none = Except.ok base →
      simple_voice_conversion dsp base vc = none →
      generate_with_cloned_voice env dsp text vc path =
        (Except.error ConvError.zero_division, [])) := by
  refine ⟨?_, ?_, ?_⟩
  · intro text path hist h
    unfold generate_audio
    rw [h]
  · intro text vc path h
    unfold generate_with_cloned_voice generate_audio
    rw [h]
  · intro text vc path base h1 h2
    unfold generate_with_cloned_voice generate_audio
    rw [h1]
    simp [h2]

theorem C7_error_propagation_witness :
    generate_audio envFail "hello" none none = (Except.error 7, []) ∧
    generate_with_cloned_voice envFail dspId "hello" ⟨none, none⟩ "out.wav" =
      (Except.error (ConvError.external 7), []) ∧
    generate_with_cloned_voice envOk dspId "hello" ⟨none, some 0⟩ "out.wav" =
      (Except.error ConvError.zero_division, []) :=
  ⟨(C7_error_propagation envFail dspId 7).1 "hello" none none rfl,
   (C7_error_propagation envFail dspId 7).2.1 "hello" ⟨none, none⟩
     "out.wav" rfl,
   (C7_error_propagation envOk dspId 7).2.2 "hello" ⟨none, some 0⟩
     "out.wav" [5] rfl
     (by simp [simple_voice_conversion, custom_time_stretch])⟩

/-- C9: a missing "pitch" key behaves exactly as pitch offset 0 and a missing
"tempo" key behaves exactly as tempo 120; tempo 120 yields rate 120/120 = 1,
at which the time-stretch step returns a buffer of unchanged length (assuming
the external resampler honours its target length). -/
theorem C9_default_pitch_tempo (dsp : DSP)
    (hres : ∀ (a : List ℚ) (s t : Int), 0 ≤ t →
      (dsp.resample a s t).length = t.toNat) :
    (∀ (audio : List Int) (t : Option ℚ),
      simple_voice_conversion dsp audio ⟨none, t⟩ =
        simple_voice_conversion dsp audio ⟨some 0, t⟩) ∧
    (∀ (audio : List Int) (p : Option ℚ),
      simple_voice_conversion dsp audio ⟨p, none⟩ =
        simple_voice_conversion dsp audio ⟨p, some 120⟩) ∧
    ((120 : ℚ) / 120 = 1) ∧
    (∀ a : List ℚ,
      (custom_time_stretch dsp a ((120 : ℚ) / 120)).map List.length =
        some a.length) := by
  refine ⟨fun _ _ => rfl, fun _ _ => rfl, by norm_num, ?_⟩
  intro a
  have h1 : (120 : ℚ) / 120 = 1 := by norm_num
  rw [h1]
  unfold custom_time_stretch
  rw [if_neg one_ne_zero, div_one, pyInt_natCast, Option.map_some']
  rw [hres _ _ _ (Int.natCast_nonneg a.length)]
  simp

theorem C9_default_pitch_tempo_witness :
    simple_voice_conversion dspId [5] ⟨none, none⟩ =
      simple_voice_conversion dspId [5] ⟨some 0, none⟩ ∧
    (custom_time_stretch dspId [1 / 2] ((120 : ℚ) / 120)).map List.length =
      some ([1 / 2] : List ℚ).length :=
  ⟨(C9_default_pitch_tempo dspId
      (fun a s t _ => dspId_resample_length a s t)).1 [5] none,
   (C9_default_pitch_tempo dspId
      (fun a s t _ => dspId_resample_length a s t)).2.2.2 [1 / 2]⟩

/-- C10: when every float sample entering the final conversion step of
`simple_voice_conversion` lies in [-1, 1], the output is the buffer obtained
by scaling by 32767 and truncating toward zero, with no int16 wraparound, and
every output sample lies in [-32767, 32767]. -/
theorem C10_int16_no_overflow (dsp : DSP) (audio : List Int)
    (vc : VoiceCharacteristics) (l : List ℚ)
    (hl : conversion_input dsp audio vc = some l)
    (hb : ∀ x ∈ l, -1 ≤ x ∧ x ≤ 1) :
    simple_voice_conversion dsp audio vc =
      some (l.map (fun x => pyInt (x * 32767))) ∧
    ∀ y ∈ l.map (fun x => pyInt (x * 32767)), -32767 ≤ y ∧ y ≤ 32767 := by
  constructor
  · rw [simple_voice_conversion_eq_map, hl, Option.map_some']
    rw [int16_of_floats_eq_of_bounded l hb]
  · intro y hy
    obtain ⟨x, hx, rfl⟩ := List.mem_map.mp hy
    exact pyInt_mul_32767_bounds x (hb x hx).1 (hb x hx).2

theorem C10_int16_no_overflow_witness :
    simple_voice_conversion dspId [1, 2] ⟨some 0, some 120⟩ =
      some (([1 / 2, 1] : List ℚ).map (fun x => pyInt (x * 32767))) :=
  (C10_int16_no_overflow dspId [1, 2] ⟨some 0, some 120⟩ [1 / 2, 1]
    (by simp [conversion_input, librosa_normalize, peakAbs, astype_float,
          custom_time_stretch, length_normalize, pyInt, dspId, resampleId])
    (by norm_num)).1

end JBark
